import Mathlib

/-!
Shallow embedding of the request-dispatch pipeline of the felafax LLM
gateway (`src/main.rs`).  The handler `chat_completion`, the helpers
`extract_bearer_token`, `log_stats` and `log_and_respond` are translated
from `src/main.rs`.  The repository's `types`, `request_logs`, `client`
and `firestore` modules are not among the sources; their data shapes are
modelled from the specification (each such definition carries a
`Modelled from the spec:` doc comment).

External effects are made explicit:
* the Firestore lookup and the provider adapters' `chat` calls are an
  environment `Env` of oracles giving the outcome of each outbound call;
* the handler returns, besides the HTTP response, the ordered trace of
  observable events (config-store lookup, provider invocation, telemetry
  record spawn, response construction);
* a Rust panic (`unwrap` on `None`) is the `Except.error` case of the
  handler's result.
-/

namespace LLMGateway

/-- Modelled from the spec: one chat message (role, content) of the
OpenAI-shaped schema; the concrete `types` module is not in the sources. -/
structure ChatMessage where
  role : String
  content : String
  deriving DecidableEq

/-- Modelled from the spec: `OaiChatCompletionRequest` = model hint plus an
ordered sequence of messages (`types` module not in the sources). -/
structure OaiChatCompletionRequest where
  model : Option String
  messages : List ChatMessage
  deriving DecidableEq

/-- Modelled from the spec: token-usage counts of a chat response. -/
structure Usage where
  prompt_tokens : Nat
  completion_tokens : Nat
  total_tokens : Nat
  deriving DecidableEq

/-- Modelled from the spec: `OaiChatCompletionResponse` = model identifier,
ordered choices, optional usage (`types` module not in the sources). -/
structure OaiChatCompletionResponse where
  model : String
  choices : List ChatMessage
  usage : Option Usage
  deriving DecidableEq

/-- Modelled from the spec: per-provider credential record held in a tenant
config (`firestore` module not in the sources). -/
structure LlmConfig where
  api_key : String
  deriving DecidableEq

/-- Modelled from the spec: the tenant record returned by the config store:
selected provider name plus the provider-name → credential mapping. -/
structure CustomerConfig where
  selected_llm_name : String
  llm_configs : List (String × LlmConfig)
  deriving DecidableEq

/-- HashMap-style lookup on the credential mapping
(`customer_config.llm_configs.get(name)`). -/
def lookupLlmConfig (configs : List (String × LlmConfig)) (name : String) :
    Option LlmConfig :=
  (configs.find? (fun p => p.1 == name)).map (fun p => p.2)

/-- Untyped JSON value (`serde_json::Value`). -/
inductive Json where
  | null
  | bool (b : Bool)
  | num (n : Int)
  | str (s : String)
  | arr (elems : List Json)
  | obj (fields : List (String × Json))

/-- Escape of quote and backslash inside a JSON string literal. -/
def jsonEscape (s : String) : String :=
  s.foldl
    (fun acc c =>
      acc ++ (if c = '"' then "\\\"" else if c = '\\' then "\\\\" else String.singleton c))
    ""

/-- Rendering of a string as a JSON string literal (quoted, escaped);
this is `serde_json::to_string` on a Rust `String`. -/
def jsonStr (s : String) : String := "\"" ++ jsonEscape s ++ "\""

/-- Comma-joined concatenation, for JSON arrays and objects. -/
def commaSep : List String → String
  | [] => ""
  | [x] => x
  | x :: xs => x ++ "," ++ commaSep xs

/-- Modelled from the spec: serde serialization of one chat message. -/
def serializeMessage (m : ChatMessage) : String :=
  "\x7b\"role\":" ++ jsonStr m.role ++ ",\"content\":" ++ jsonStr m.content ++ "\x7d"

/-- Modelled from the spec: `serde_json::to_string` of a chat request
(`types` module not in the sources). -/
def serializeReq (r : OaiChatCompletionRequest) : String :=
  "\x7b" ++
    (match r.model with
     | some m => "\"model\":" ++ jsonStr m ++ ","
     | none => "") ++
    "\"messages\":[" ++ commaSep (r.messages.map serializeMessage) ++ "]\x7d"

/-- Modelled from the spec: serde serialization of the usage counts. -/
def serializeUsage (u : Usage) : String :=
  "\x7b\"prompt_tokens\":" ++ toString u.prompt_tokens ++
    ",\"completion_tokens\":" ++ toString u.completion_tokens ++
    ",\"total_tokens\":" ++ toString u.total_tokens ++ "\x7d"

/-- Modelled from the spec: `serde_json::to_string` of a chat response. -/
def serializeResp (r : OaiChatCompletionResponse) : String :=
  "\x7b\"model\":" ++ jsonStr r.model ++
    ",\"choices\":[" ++ commaSep (r.choices.map serializeMessage) ++ "]" ++
    (match r.usage with
     | some u => ",\"usage\":" ++ serializeUsage u
     | none => "") ++
    "\x7d"

/-- Field lookup in a JSON object (first binding wins, as in serde's maps). -/
def lookupField (fields : List (String × Json)) (key : String) : Option Json :=
  (fields.find? (fun p => p.1 == key)).map (fun p => p.2)

/-- Modelled from the spec: serde deserialization of one message object;
requires string fields `role` and `content`. -/
def parseMessage : Json → Except String ChatMessage
  | .obj fields =>
    match lookupField fields "role", lookupField fields "content" with
    | some (.str r), some (.str c) => .ok { role := r, content := c }
    | _, _ => .error "missing field `role` or `content`"
  | _ => .error "invalid type: expected a message object"

/-- Modelled from the spec: `serde_json::from_value::<OaiChatCompletionRequest>`:
the body must be an object with a `messages` array of message objects and an
optional string `model` hint; anything else fails schema validation. -/
def parseChatRequest (payload : Json) : Except String OaiChatCompletionRequest :=
  match payload with
  | .obj fields =>
    match lookupField fields "messages" with
    | some (.arr elems) =>
      match elems.mapM parseMessage with
      | .ok msgs =>
        match lookupField fields "model" with
        | some (.str m) => .ok { model := some m, messages := msgs }
        | some _ => .error "invalid type for field `model`"
        | none => .ok { model := none, messages := msgs }
      | .error e => .error e
    | _ => .error "missing field `messages`"
  | _ => .error "invalid type: expected an object"

/-- Authorization header value as seen by axum: either a value whose
`to_str()` succeeds, or one that is not convertible to a string. -/
inductive HeaderValue where
  | valid (s : String)
  | invalid
  deriving DecidableEq

/-- Inbound header map, restricted to the only header the handler reads. -/
structure HeaderMap where
  authorization : Option HeaderValue
  deriving DecidableEq

/-- Translation of `extract_bearer_token` (src/main.rs:36-45).
Rust's `auth_str.starts_with("Bearer ")` is modelled as the first 7
characters being `"Bearer "` (the prefix is 7 ASCII bytes), and
`auth_str[7..]` as dropping those 7 characters. -/
def extract_bearer_token (headers : HeaderMap) : Option String :=
  match headers.authorization with
  | some (.valid auth_str) =>
    if auth_str.take 7 = "Bearer " then some (auth_str.drop 7) else none
  | _ => none

/-- Modelled from the spec: the LogRecord built by `RequestLogBuilder`
(`request_logs` module not in the sources).  The fresh `id` and the wall
clock `timestamp` are ambient nondeterminism not observed by any claim and
are omitted; every other field set by `log_stats` is present.  Fields a
path does not set keep the builder's default. -/
structure RequestLog where
  customer_id : String
  request : Option String := none
  llm_name : Option String := none
  response : Option String := none
  llm_model : Option String := none
  prompt_tokens : Option Nat := none
  completion_tokens : Option Nat := none
  total_tokens : Option Nat := none
  total_latency : Nat := 0
  error : Option String := none
  deriving DecidableEq

/-- Body of an HTTP reply: either the single-field error envelope
`json!(\x7b "error": error \x7d)` or `serde_json::to_value(response)`
(note the latter serializes the `Option`: `none` renders as JSON null). -/
inductive RespBody where
  | errJson (error : String)
  | respJson (response : Option OaiChatCompletionResponse)
  deriving DecidableEq

/-- HTTP status code plus body, the value produced by `IntoResponse`. -/
structure HttpResponse where
  status : Nat
  body : RespBody
  deriving DecidableEq

/-- Observable events of one request, in order: the Firestore
config lookup, a provider adapter invocation, the telemetry record
build-and-spawn, and the construction of the HTTP response. -/
inductive Event where
  | configLookup (token : String)
  | providerCall (llm_name : String) (request : OaiChatCompletionRequest)
  | telemetry (record : RequestLog)
  | respond (status : Nat) (body : RespBody)
  deriving DecidableEq

/-- Translation of `log_stats` (src/main.rs:47-98): builds the request log
record.  `status_code` is accepted and ignored exactly as in the source;
the `llm_model` and usage fields are set only when a response is present,
mirroring the `if let` chains. -/
def log_stats (status_code : Nat) (felafax_token : String)
    (request : Option OaiChatCompletionRequest)
    (response : Option OaiChatCompletionResponse)
    (llm_name : Option String) (latency : Nat) (error : Option String) :
    RequestLog :=
  { customer_id := felafax_token
    request := request.map serializeReq
    llm_name := llm_name
    response := response.map serializeResp
    llm_model := response.map (fun r => jsonStr r.model)
    prompt_tokens := response.bind (fun r => r.usage.map Usage.prompt_tokens)
    completion_tokens := response.bind (fun r => r.usage.map Usage.completion_tokens)
    total_tokens := response.bind (fun r => r.usage.map Usage.total_tokens)
    total_latency := latency
    error := error }

/-- Translation of `log_and_respond` (src/main.rs:100-129): one telemetry
invocation (record build plus background spawn) followed by one response
construction; with an error the body is the error envelope, otherwise the
serialized optional response. -/
def log_and_respond (status_code : Nat) (felafax_token : String)
    (request : Option OaiChatCompletionRequest)
    (response : Option OaiChatCompletionResponse)
    (llm_name : Option String) (latency : Nat) (error : Option String) :
    List Event × HttpResponse :=
  let record := log_stats status_code felafax_token request response llm_name latency error
  let body : RespBody :=
    match error with
    | some e => .errJson e
    | none => .respJson response
  ([Event.telemetry record, Event.respond status_code body],
   { status := status_code, body := body })

/-- Environment of external collaborators: the outcome of the Firestore
`get_customer_configs` call for a given token (`Except Unit` is the store
failing; `ok none` is "token not found"), and the outcome of a provider
adapter's `chat` call given the provider name, the API key the client was
constructed with, and the parsed request. -/
structure Env where
  get_customer_configs : String → Except Unit (Option CustomerConfig)
  chat : String → String → OaiChatCompletionRequest →
    Except String OaiChatCompletionResponse

/-- Translation of one dispatch arm of `chat_completion`
(src/main.rs:197-230): fetch the credential for `name` from the tenant's
map — the source calls `.unwrap()` on the lookup, so a missing entry is a
panic, modelled as `Except.error` — then build the client with that API
key and invoke its `chat`; the outcome is handled as in
src/main.rs:247-276. -/
def invokeProvider (env : Env) (customer_config : CustomerConfig)
    (felafax_token : String) (name : String)
    (request : OaiChatCompletionRequest) :
    Except String (List Event × HttpResponse) :=
  match lookupLlmConfig customer_config.llm_configs name with
  | none => .error "called Option::unwrap() on a None value"
  | some llm_config =>
    match env.chat name llm_config.api_key request with
    | .ok response =>
      let r := log_and_respond 200 felafax_token (some request) (some response)
        (some customer_config.selected_llm_name) 0 none
      .ok (Event.providerCall name request :: r.1, r.2)
    | .error e =>
      let r := log_and_respond 500 felafax_token (some request) none
        (some customer_config.selected_llm_name) 0 (some e)
      .ok (Event.providerCall name request :: r.1, r.2)

/-- Translation of the handler `chat_completion` (src/main.rs:131-277):
extract the bearer token (401 if absent/malformed), look the tenant config
up (401 on `Ok(None)` and on `Err` alike), parse the body (400 on schema
violation), then match `selected_llm_name` against the three supported
names — note the `"jamba"` arm constructs the `client::mamba::Mamba`
adapter, and the fallback message names `mamba` — and dispatch.  The
returned trace lists the observable events in program order. -/
def chat_completion (env : Env) (headers : HeaderMap) (payload : Json) :
    Except String (List Event × HttpResponse) :=
  match extract_bearer_token headers with
  | none =>
    let r := log_and_respond 401 "" none none none 0
      (some "Unauthorized: Missing or invalid token.")
    .ok (r.1, r.2)
  | some felafax_token =>
    match env.get_customer_configs felafax_token with
    | .ok (some customer_config) =>
      match parseChatRequest payload with
      | .ok request =>
        match customer_config.selected_llm_name with
        | "claude" =>
          match invokeProvider env customer_config felafax_token "claude" request with
          | .ok r => .ok (Event.configLookup felafax_token :: r.1, r.2)
          | .error e => .error e
        | "openai" =>
          match invokeProvider env customer_config felafax_token "openai" request with
          | .ok r => .ok (Event.configLookup felafax_token :: r.1, r.2)
          | .error e => .error e
        | "jamba" =>
          match invokeProvider env customer_config felafax_token "jamba" request with
          | .ok r => .ok (Event.configLookup felafax_token :: r.1, r.2)
          | .error e => .error e
        | _ =>
          let r := log_and_respond 400 felafax_token (some request) none none 0
            (some "Invalid LLM name. Supported LLMs are: mamba, openai, claude")
          .ok (Event.configLookup felafax_token :: r.1, r.2)
      | .error e =>
        let r := log_and_respond 400 felafax_token none none none 0
          (some ("Error while parsing request. Maybe it's not following OpenAI spec\nError: " ++ e))
        .ok (Event.configLookup felafax_token :: r.1, r.2)
    | _ =>
      let r := log_and_respond 401 felafax_token none none none 0
        (some "Invalid felafax token")
      .ok (Event.configLookup felafax_token :: r.1, r.2)

/-- Discriminator: is the event a telemetry record build-and-spawn. -/
def isTelemetry : Event → Bool
  | .telemetry _ => true
  | _ => false

/-- Discriminator: is the event a response construction. -/
def isRespond : Event → Bool
  | .respond _ _ => true
  | _ => false

/-- Discriminator: is the event a provider adapter invocation. -/
def isProviderCall : Event → Bool
  | .providerCall _ _ => true
  | _ => false

/-- Discriminator: is the event a config-store lookup. -/
def isConfigLookup : Event → Bool
  | .configLookup _ => true
  | _ => false

/-- Number of telemetry invocations in a trace. -/
def telemetryCount (tr : List Event) : Nat := tr.countP (fun e => isTelemetry e)

/-- Number of response constructions in a trace. -/
def respondCount (tr : List Event) : Nat := tr.countP (fun e => isRespond e)

/-- True when the trace contains no provider adapter invocation. -/
def noProviderCall (tr : List Event) : Bool := tr.all (fun e => !isProviderCall e)

/-- True when the trace contains no config-store lookup. -/
def noConfigLookup (tr : List Event) : Bool := tr.all (fun e => !isConfigLookup e)

end LLMGateway

namespace LLMGateway

/-! Concrete fixtures used by counterexamples and witnesses. -/

/-- Sample parsed request: one user message `hi`, no model hint. -/
def goodRequest : OaiChatCompletionRequest :=
  { model := none, messages := [{ role := "user", content := "hi" }] }

/-- Sample provider response with usage counts 3/5/8. -/
def okResponse : OaiChatCompletionResponse :=
  { model := "gpt-4", choices := [{ role := "assistant", content := "hello" }],
    usage := some { prompt_tokens := 3, completion_tokens := 5, total_tokens := 8 } }

/-- Tenant config selecting `openai` with a credential for it. -/
def okConfig : CustomerConfig :=
  { selected_llm_name := "openai", llm_configs := [("openai", { api_key := "sk-x" })] }

/-- Environment where token `tok_abc` resolves to `okConfig`, every other
token is not found, and every provider call succeeds with `okResponse`. -/
def sampleEnv : Env :=
  { get_customer_configs := fun t => if t = "tok_abc" then .ok (some okConfig) else .ok none
    chat := fun _ _ _ => .ok okResponse }

/-- Environment like `sampleEnv` but whose provider calls all fail. -/
def errEnv : Env :=
  { get_customer_configs := fun t => if t = "tok_abc" then .ok (some okConfig) else .ok none
    chat := fun _ _ _ => .error "upstream provider failed" }

/-- Headers carrying `Authorization: Bearer tok_abc`. -/
def goodHeaders : HeaderMap := { authorization := some (.valid "Bearer tok_abc") }

/-- Headers whose Authorization value is exactly `Bearer ` (empty token). -/
def emptyBearerHeaders : HeaderMap := { authorization := some (.valid "Bearer ") }

/-- Schema-valid body: one user message `hi`. -/
def goodPayload : Json :=
  .obj [("messages", .arr [.obj [("role", .str "user"), ("content", .str "hi")]])]

/-- Schema-invalid body: an object with no `messages` field. -/
def badPayload : Json := .obj []

/-- Tenant config selecting `claude` whose credential map lacks a `claude`
entry (the configuration-integrity condition of the spec). -/
def missingCredConfig : CustomerConfig :=
  { selected_llm_name := "claude", llm_configs := [] }

/-- Environment where every token resolves to `missingCredConfig`. -/
def missingCredEnv : Env :=
  { get_customer_configs := fun _ => .ok (some missingCredConfig)
    chat := fun _ _ _ => .ok okResponse }

/-- Tenant config selecting `mamba` — the name the fallback error message
claims is supported — with credentials for both spellings. -/
def mambaConfig : CustomerConfig :=
  { selected_llm_name := "mamba",
    llm_configs := [("mamba", { api_key := "k" }), ("jamba", { api_key := "k" })] }

/-- Environment where every token resolves to `mambaConfig`. -/
def mambaEnv : Env :=
  { get_customer_configs := fun _ => .ok (some mambaConfig)
    chat := fun _ _ _ => .ok okResponse }

/-- Tenant config selecting `jamba`, the spelling the dispatcher accepts. -/
def jambaConfig : CustomerConfig :=
  { selected_llm_name := "jamba", llm_configs := [("jamba", { api_key := "k" })] }

/-- Environment where every token resolves to `jambaConfig`. -/
def jambaEnv : Env :=
  { get_customer_configs := fun _ => .ok (some jambaConfig)
    chat := fun _ _ _ => .ok okResponse }

/-- Telemetry record of the sample success run. -/
def successRecord : RequestLog :=
  log_stats 200 "tok_abc" (some goodRequest) (some okResponse) (some "openai") 0 none

/-- Event trace of the sample success run. -/
def successTrace : List Event :=
  [Event.configLookup "tok_abc", Event.providerCall "openai" goodRequest,
   Event.telemetry successRecord,
   Event.respond 200 (RespBody.respJson (some okResponse))]

/-- HTTP response of the sample success run. -/
def successResp : HttpResponse :=
  { status := 200, body := RespBody.respJson (some okResponse) }

/-! Helper lemmas shared by several claims. -/

/-- Dispatch with a present credential and a succeeding `chat` call yields
the 200 path of `log_and_respond`. -/
theorem invokeProvider_chat_ok (env : Env) (c : CustomerConfig) (tok name : String)
    (req : OaiChatCompletionRequest) (llm_config : LlmConfig)
    (response : OaiChatCompletionResponse)
    (hcred : lookupLlmConfig c.llm_configs name = some llm_config)
    (hchat : env.chat name llm_config.api_key req = .ok response) :
    invokeProvider env c tok name req =
      .ok (Event.providerCall name req ::
            (log_and_respond 200 tok (some req) (some response)
              (some c.selected_llm_name) 0 none).1,
           (log_and_respond 200 tok (some req) (some response)
              (some c.selected_llm_name) 0 none).2) := by
  simp only [invokeProvider, hcred, hchat]

/-- Dispatch with a present credential and a failing `chat` call yields
the 500 path of `log_and_respond`. -/
theorem invokeProvider_chat_err (env : Env) (c : CustomerConfig) (tok name : String)
    (req : OaiChatCompletionRequest) (llm_config : LlmConfig) (e : String)
    (hcred : lookupLlmConfig c.llm_configs name = some llm_config)
    (hchat : env.chat name llm_config.api_key req = .error e) :
    invokeProvider env c tok name req =
      .ok (Event.providerCall name req ::
            (log_and_respond 500 tok (some req) none
              (some c.selected_llm_name) 0 (some e)).1,
           (log_and_respond 500 tok (some req) none
              (some c.selected_llm_name) 0 (some e)).2) := by
  simp only [invokeProvider, hcred, hchat]

/-- Dispatch that returns `ok` always produced a provider call followed by
one telemetry event and one response construction, with zero latency. -/
theorem invokeProvider_ok_shape (env : Env) (c : CustomerConfig) (tok name : String)
    (req : OaiChatCompletionRequest) (tr : List Event) (resp : HttpResponse)
    (h : invokeProvider env c tok name req = .ok (tr, resp)) :
    ∃ record status body,
      tr = [Event.providerCall name req, Event.telemetry record,
            Event.respond status body] ∧
      record.total_latency = 0 := by
  unfold invokeProvider at h
  split at h
  · exact absurd h (by simp)
  · split at h
    · simp only [log_and_respond, log_stats, Except.ok.injEq, Prod.mk.injEq] at h
      obtain ⟨rfl, rfl⟩ := h
      exact ⟨_, _, _, rfl, rfl⟩
    · simp only [log_and_respond, log_stats, Except.ok.injEq, Prod.mk.injEq] at h
      obtain ⟨rfl, rfl⟩ := h
      exact ⟨_, _, _, rfl, rfl⟩

/-- Every non-panicking run's trace is a prefix of lookup/provider events
(never telemetry or response events) followed by exactly one telemetry
event and then exactly one response construction; the telemetry record
always carries latency 0. -/
theorem chat_completion_trace_shape (env : Env) (headers : HeaderMap) (payload : Json)
    (tr : List Event) (resp : HttpResponse)
    (h : chat_completion env headers payload = .ok (tr, resp)) :
    ∃ pre record status body,
      tr = pre ++ [Event.telemetry record, Event.respond status body] ∧
      (∀ e ∈ pre, isTelemetry e = false ∧ isRespond e = false) ∧
      record.total_latency = 0 := by
  unfold chat_completion at h
  split at h
  · simp only [log_and_respond, log_stats, Except.ok.injEq, Prod.mk.injEq] at h
    obtain ⟨rfl, rfl⟩ := h
    exact ⟨[], _, _, _, rfl, by simp, rfl⟩
  · rename_i felafax_token _
    split at h
    · rename_i customer_config _
      split at h
      · rename_i request _
        split at h
        · split at h
          · rename_i r hinv
            simp only [Except.ok.injEq, Prod.mk.injEq] at h
            obtain ⟨rfl, rfl⟩ := h
            obtain ⟨record, status, body, hshape, hlat⟩ :=
              invokeProvider_ok_shape _ _ _ _ _ _ _ hinv
            refine ⟨[Event.configLookup felafax_token,
              Event.providerCall "claude" request],
              record, status, body, by simp [hshape], ?_, hlat⟩
            intro e he
            simp only [List.mem_cons, List.not_mem_nil, or_false] at he
            rcases he with rfl | rfl <;> exact ⟨rfl, rfl⟩
          · exact absurd h (by simp)
        · split at h
          · rename_i r hinv
            simp only [Except.ok.injEq, Prod.mk.injEq] at h
            obtain ⟨rfl, rfl⟩ := h
            obtain ⟨record, status, body, hshape, hlat⟩ :=
              invokeProvider_ok_shape _ _ _ _ _ _ _ hinv
            refine ⟨[Event.configLookup felafax_token,
              Event.providerCall "openai" request],
              record, status, body, by simp [hshape], ?_, hlat⟩
            intro e he
            simp only [List.mem_cons, List.not_mem_nil, or_false] at he
            rcases he with rfl | rfl <;> exact ⟨rfl, rfl⟩
          · exact absurd h (by simp)
        · split at h
          · rename_i r hinv
            simp only [Except.ok.injEq, Prod.mk.injEq] at h
            obtain ⟨rfl, rfl⟩ := h
            obtain ⟨record, status, body, hshape, hlat⟩ :=
              invokeProvider_ok_shape _ _ _ _ _ _ _ hinv
            refine ⟨[Event.configLookup felafax_token,
              Event.providerCall "jamba" request],
              record, status, body, by simp [hshape], ?_, hlat⟩
            intro e he
            simp only [List.mem_cons, List.not_mem_nil, or_false] at he
            rcases he with rfl | rfl <;> exact ⟨rfl, rfl⟩
          · exact absurd h (by simp)
        · simp only [log_and_respond, log_stats, Except.ok.injEq, Prod.mk.injEq] at h
          obtain ⟨rfl, rfl⟩ := h
          refine ⟨[Event.configLookup felafax_token], _, _, _, rfl, ?_, rfl⟩
          intro e he
          simp only [List.mem_cons, List.not_mem_nil, or_false] at he
          subst he
          exact ⟨rfl, rfl⟩
      · simp only [log_and_respond, log_stats, Except.ok.injEq, Prod.mk.injEq] at h
        obtain ⟨rfl, rfl⟩ := h
        refine ⟨[Event.configLookup felafax_token], _, _, _, rfl, ?_, rfl⟩
        intro e he
        simp only [List.mem_cons, List.not_mem_nil, or_false] at he
        subst he
        exact ⟨rfl, rfl⟩
    · simp only [log_and_respond, log_stats, Except.ok.injEq, Prod.mk.injEq] at h
      obtain ⟨rfl, rfl⟩ := h
      refine ⟨[Event.configLookup felafax_token], _, _, _, rfl, ?_, rfl⟩
      intro e he
      simp only [List.mem_cons, List.not_mem_nil, or_false] at he
      subst he
      exact ⟨rfl, rfl⟩

end LLMGateway

namespace LLMGateway

/-! Claim theorems. -/

/-- C1: the spec requires that a tenant config whose credential map lacks an
entry for its own selected provider be signaled as `InternalError`, not
propagated as an unhandled fault; the code instead calls `.unwrap()` on the
missing credential and panics.  At a concrete such input the handler ends in
the panic case, producing no response at all. -/
theorem missing_credential_is_a_panic_not_internal_error :
    chat_completion missingCredEnv goodHeaders goodPayload =
      .error "called Option::unwrap() on a None value" := rfl

/-- C2 counterexample: for the header value exactly `Bearer `, the
authenticator does NOT signal Unauthorized: it returns the empty-string
token, and a config-store lookup (with that empty token) does occur. -/
theorem empty_bearer_token_reaches_config_lookup :
    extract_bearer_token emptyBearerHeaders = some "" ∧
    noConfigLookup
      ((chat_completion sampleEnv emptyBearerHeaders goodPayload).toOption.elim
        [] (fun p => p.1)) = false := ⟨rfl, rfl⟩

/-- C2 (amended): for the header value exactly `Bearer `, the authenticator
returns the empty-string token, the config-store lookup with that token
occurs, and the request is then rejected 401 (`Invalid felafax token`) when
the store has no config for the empty token (or the store call fails). -/
theorem empty_bearer_token_rejected_only_via_config_lookup (env : Env) (payload : Json)
    (h : env.get_customer_configs "" = .ok none ∨
         env.get_customer_configs "" = .error ()) :
    extract_bearer_token emptyBearerHeaders = some "" ∧
    chat_completion env emptyBearerHeaders payload =
      .ok ([Event.configLookup "",
            Event.telemetry (log_stats 401 "" none none none 0
              (some "Invalid felafax token")),
            Event.respond 401 (RespBody.errJson "Invalid felafax token")],
           { status := 401, body := RespBody.errJson "Invalid felafax token" }) := by
  refine ⟨rfl, ?_⟩
  rcases h with h | h <;>
    simp only [chat_completion,
      show extract_bearer_token emptyBearerHeaders = some "" from rfl,
      h, log_and_respond, log_stats]

/-- Witness for the amended C2 at `sampleEnv` and the sample payload. -/
theorem empty_bearer_token_rejected_only_via_config_lookup_witness :
    extract_bearer_token emptyBearerHeaders = some "" ∧
    chat_completion sampleEnv emptyBearerHeaders goodPayload =
      .ok ([Event.configLookup "",
            Event.telemetry (log_stats 401 "" none none none 0
              (some "Invalid felafax token")),
            Event.respond 401 (RespBody.errJson "Invalid felafax token")],
           { status := 401, body := RespBody.errJson "Invalid felafax token" }) :=
  empty_bearer_token_rejected_only_via_config_lookup sampleEnv goodPayload (Or.inl rfl)

/-- C3: an unsupported `selected_llm_name` is answered 400 with no provider
invocation, but the error message does not list the supported provider set:
the dispatcher accepts exactly `claude`/`openai`/`jamba`, while the message
names `mamba`.  Concretely, `mamba` — a name the message itself calls
supported — is rejected (400, no provider call, even with a `mamba`
credential present), whereas `jamba` — absent from the message — is
dispatched. -/
theorem unsupported_name_message_mismatch :
    chat_completion mambaEnv goodHeaders goodPayload =
      .ok ([Event.configLookup "tok_abc",
            Event.telemetry (log_stats 400 "tok_abc" (some goodRequest) none none 0
              (some "Invalid LLM name. Supported LLMs are: mamba, openai, claude")),
            Event.respond 400 (RespBody.errJson
              "Invalid LLM name. Supported LLMs are: mamba, openai, claude")],
           { status := 400,
             body := RespBody.errJson
               "Invalid LLM name. Supported LLMs are: mamba, openai, claude" }) ∧
    chat_completion jambaEnv goodHeaders goodPayload =
      .ok ([Event.configLookup "tok_abc",
            Event.providerCall "jamba" goodRequest,
            Event.telemetry (log_stats 200 "tok_abc" (some goodRequest)
              (some okResponse) (some "jamba") 0 none),
            Event.respond 200 (RespBody.respJson (some okResponse))],
           { status := 200, body := RespBody.respJson (some okResponse) }) := ⟨rfl, rfl⟩

/-- C4: whenever the selected provider's `chat` returns `Ok(response)`, the
gateway answers 200 with exactly that response as body, and attempts exactly
one LogRecord, whose `request` and `response` fields hold the serialized
request and response. -/
theorem provider_success_passthrough_and_logged (env : Env) (headers : HeaderMap)
    (payload : Json) (tok : String) (config : CustomerConfig)
    (request : OaiChatCompletionRequest) (llm_config : LlmConfig)
    (response : OaiChatCompletionResponse)
    (htok : extract_bearer_token headers = some tok)
    (hcfg : env.get_customer_configs tok = .ok (some config))
    (hparse : parseChatRequest payload = .ok request)
    (hname : config.selected_llm_name = "claude" ∨ config.selected_llm_name = "openai" ∨
             config.selected_llm_name = "jamba")
    (hcred : lookupLlmConfig config.llm_configs config.selected_llm_name = some llm_config)
    (hchat : env.chat config.selected_llm_name llm_config.api_key request = .ok response) :
    chat_completion env headers payload =
      .ok ([Event.configLookup tok,
            Event.providerCall config.selected_llm_name request,
            Event.telemetry (log_stats 200 tok (some request) (some response)
              (some config.selected_llm_name) 0 none),
            Event.respond 200 (RespBody.respJson (some response))],
           { status := 200, body := RespBody.respJson (some response) }) ∧
    (log_stats 200 tok (some request) (some response)
      (some config.selected_llm_name) 0 none).request = some (serializeReq request) ∧
    (log_stats 200 tok (some request) (some response)
      (some config.selected_llm_name) 0 none).response = some (serializeResp response) := by
  refine ⟨?_, rfl, rfl⟩
  obtain ⟨sel, llmcfgs⟩ := config
  simp only at hname hcred hchat ⊢
  rcases hname with rfl | rfl | rfl <;>
    simp only [chat_completion, htok, hcfg, hparse,
      invokeProvider_chat_ok env ⟨_, llmcfgs⟩ tok _ request llm_config response hcred hchat,
      log_and_respond, log_stats]

/-- Witness for C4 at the sample success run. -/
theorem provider_success_passthrough_and_logged_witness :
    chat_completion sampleEnv goodHeaders goodPayload =
      .ok ([Event.configLookup "tok_abc",
            Event.providerCall "openai" goodRequest,
            Event.telemetry (log_stats 200 "tok_abc" (some goodRequest) (some okResponse)
              (some "openai") 0 none),
            Event.respond 200 (RespBody.respJson (some okResponse))],
           { status := 200, body := RespBody.respJson (some okResponse) }) ∧
    (log_stats 200 "tok_abc" (some goodRequest) (some okResponse)
      (some "openai") 0 none).request = some (serializeReq goodRequest) ∧
    (log_stats 200 "tok_abc" (some goodRequest) (some okResponse)
      (some "openai") 0 none).response = some (serializeResp okResponse) :=
  provider_success_passthrough_and_logged sampleEnv goodHeaders goodPayload
    "tok_abc" okConfig goodRequest { api_key := "sk-x" } okResponse
    rfl rfl rfl (Or.inr (Or.inl rfl)) rfl rfl

/-- C5: whenever the selected provider's `chat` returns `Err(e)`, the gateway
answers 500 with the single-field error envelope carrying the provider's
error text, and attempts exactly one LogRecord holding the serialized
request and the error but no response. -/
theorem provider_failure_500_and_logged (env : Env) (headers : HeaderMap)
    (payload : Json) (tok : String) (config : CustomerConfig)
    (request : OaiChatCompletionRequest) (llm_config : LlmConfig) (e : String)
    (htok : extract_bearer_token headers = some tok)
    (hcfg : env.get_customer_configs tok = .ok (some config))
    (hparse : parseChatRequest payload = .ok request)
    (hname : config.selected_llm_name = "claude" ∨ config.selected_llm_name = "openai" ∨
             config.selected_llm_name = "jamba")
    (hcred : lookupLlmConfig config.llm_configs config.selected_llm_name = some llm_config)
    (hchat : env.chat config.selected_llm_name llm_config.api_key request = .error e) :
    chat_completion env headers payload =
      .ok ([Event.configLookup tok,
            Event.providerCall config.selected_llm_name request,
            Event.telemetry (log_stats 500 tok (some request) none
              (some config.selected_llm_name) 0 (some e)),
            Event.respond 500 (RespBody.errJson e)],
           { status := 500, body := RespBody.errJson e }) ∧
    (log_stats 500 tok (some request) none
      (some config.selected_llm_name) 0 (some e)).request = some (serializeReq request) ∧
    (log_stats 500 tok (some request) none
      (some config.selected_llm_name) 0 (some e)).response = none ∧
    (log_stats 500 tok (some request) none
      (some config.selected_llm_name) 0 (some e)).error = some e := by
  refine ⟨?_, rfl, rfl, rfl⟩
  obtain ⟨sel, llmcfgs⟩ := config
  simp only at hname hcred hchat ⊢
  rcases hname with rfl | rfl | rfl <;>
    simp only [chat_completion, htok, hcfg, hparse,
      invokeProvider_chat_err env ⟨_, llmcfgs⟩ tok _ request llm_config e hcred hchat,
      log_and_respond, log_stats]

/-- Witness for C5 at the sample failing-provider run. -/
theorem provider_failure_500_and_logged_witness :
    chat_completion errEnv goodHeaders goodPayload =
      .ok ([Event.configLookup "tok_abc",
            Event.providerCall "openai" goodRequest,
            Event.telemetry (log_stats 500 "tok_abc" (some goodRequest) none
              (some "openai") 0 (some "upstream provider failed")),
            Event.respond 500 (RespBody.errJson "upstream provider failed")],
           { status := 500, body := RespBody.errJson "upstream provider failed" }) ∧
    (log_stats 500 "tok_abc" (some goodRequest) none
      (some "openai") 0 (some "upstream provider failed")).request
        = some (serializeReq goodRequest) ∧
    (log_stats 500 "tok_abc" (some goodRequest) none
      (some "openai") 0 (some "upstream provider failed")).response = none ∧
    (log_stats 500 "tok_abc" (some goodRequest) none
      (some "openai") 0 (some "upstream provider failed")).error
        = some "upstream provider failed" :=
  provider_failure_500_and_logged errEnv goodHeaders goodPayload
    "tok_abc" okConfig goodRequest { api_key := "sk-x" } "upstream provider failed"
    rfl rfl rfl (Or.inr (Or.inl rfl)) rfl rfl

end LLMGateway

namespace LLMGateway

/-- C6: an authenticated request (valid token, config resolved) whose body
fails schema validation is answered 400, and no provider adapter is
invoked: the trace holds only the config lookup, the telemetry attempt and
the response construction. -/
theorem schema_invalid_400_no_provider (env : Env) (headers : HeaderMap)
    (payload : Json) (tok : String) (config : CustomerConfig) (e : String)
    (htok : extract_bearer_token headers = some tok)
    (hcfg : env.get_customer_configs tok = .ok (some config))
    (hparse : parseChatRequest payload = .error e) :
    chat_completion env headers payload =
      .ok ([Event.configLookup tok,
            Event.telemetry (log_stats 400 tok none none none 0
              (some ("Error while parsing request. Maybe it's not following OpenAI spec\nError: " ++ e))),
            Event.respond 400 (RespBody.errJson
              ("Error while parsing request. Maybe it's not following OpenAI spec\nError: " ++ e))],
           { status := 400,
             body := RespBody.errJson
               ("Error while parsing request. Maybe it's not following OpenAI spec\nError: " ++ e) }) ∧
    noProviderCall [Event.configLookup tok,
      Event.telemetry (log_stats 400 tok none none none 0
        (some ("Error while parsing request. Maybe it's not following OpenAI spec\nError: " ++ e))),
      Event.respond 400 (RespBody.errJson
        ("Error while parsing request. Maybe it's not following OpenAI spec\nError: " ++ e))] = true := by
  refine ⟨?_, rfl⟩
  simp only [chat_completion, htok, hcfg, hparse, log_and_respond, log_stats]

/-- Witness for C6: valid token, resolved config, body with no `messages`. -/
theorem schema_invalid_400_no_provider_witness :
    chat_completion sampleEnv goodHeaders badPayload =
      .ok ([Event.configLookup "tok_abc",
            Event.telemetry (log_stats 400 "tok_abc" none none none 0
              (some ("Error while parsing request. Maybe it's not following OpenAI spec\nError: " ++ "missing field `messages`"))),
            Event.respond 400 (RespBody.errJson
              ("Error while parsing request. Maybe it's not following OpenAI spec\nError: " ++ "missing field `messages`"))],
           { status := 400,
             body := RespBody.errJson
               ("Error while parsing request. Maybe it's not following OpenAI spec\nError: " ++ "missing field `messages`") }) ∧
    noProviderCall [Event.configLookup "tok_abc",
      Event.telemetry (log_stats 400 "tok_abc" none none none 0
        (some ("Error while parsing request. Maybe it's not following OpenAI spec\nError: " ++ "missing field `messages`"))),
      Event.respond 400 (RespBody.errJson
        ("Error while parsing request. Maybe it's not following OpenAI spec\nError: " ++ "missing field `messages`"))] = true :=
  schema_invalid_400_no_provider sampleEnv goodHeaders badPayload
    "tok_abc" okConfig "missing field `messages`" rfl rfl rfl

/-- C7: a request whose Authorization header is absent, not convertible to a
string, or not starting with `Bearer ` is answered 401, and the trace holds
neither a config-store lookup nor a provider invocation. -/
theorem missing_bearer_401_no_calls (env : Env) (headers : HeaderMap) (payload : Json)
    (h : headers.authorization = none ∨ headers.authorization = some HeaderValue.invalid ∨
         ∃ s, headers.authorization = some (HeaderValue.valid s) ∧ s.take 7 ≠ "Bearer ") :
    chat_completion env headers payload =
      .ok ([Event.telemetry (log_stats 401 "" none none none 0
              (some "Unauthorized: Missing or invalid token.")),
            Event.respond 401 (RespBody.errJson "Unauthorized: Missing or invalid token.")],
           { status := 401,
             body := RespBody.errJson "Unauthorized: Missing or invalid token." }) ∧
    noConfigLookup [Event.telemetry (log_stats 401 "" none none none 0
        (some "Unauthorized: Missing or invalid token.")),
      Event.respond 401 (RespBody.errJson "Unauthorized: Missing or invalid token.")] = true ∧
    noProviderCall [Event.telemetry (log_stats 401 "" none none none 0
        (some "Unauthorized: Missing or invalid token.")),
      Event.respond 401 (RespBody.errJson "Unauthorized: Missing or invalid token.")] = true := by
  have hx : extract_bearer_token headers = none := by
    rcases h with h | h | ⟨s, hs, hns⟩
    · simp [extract_bearer_token, h]
    · simp [extract_bearer_token, h]
    · simp [extract_bearer_token, hs, hns]
  refine ⟨?_, rfl, rfl⟩
  simp only [chat_completion, hx, log_and_respond, log_stats]

/-- Witness for C7 with the Authorization header absent. -/
theorem missing_bearer_401_no_calls_witness :
    chat_completion sampleEnv { authorization := none } goodPayload =
      .ok ([Event.telemetry (log_stats 401 "" none none none 0
              (some "Unauthorized: Missing or invalid token.")),
            Event.respond 401 (RespBody.errJson "Unauthorized: Missing or invalid token.")],
           { status := 401,
             body := RespBody.errJson "Unauthorized: Missing or invalid token." }) ∧
    noConfigLookup [Event.telemetry (log_stats 401 "" none none none 0
        (some "Unauthorized: Missing or invalid token.")),
      Event.respond 401 (RespBody.errJson "Unauthorized: Missing or invalid token.")] = true ∧
    noProviderCall [Event.telemetry (log_stats 401 "" none none none 0
        (some "Unauthorized: Missing or invalid token.")),
      Event.respond 401 (RespBody.errJson "Unauthorized: Missing or invalid token.")] = true :=
  missing_bearer_401_no_calls sampleEnv { authorization := none } goodPayload (Or.inl rfl)

/-- C8: for an extracted token, a config lookup returning `Ok(None)` and one
failing with `Err` produce the very same run: 401 with the identical
`Invalid felafax token` message, so the two cases are indistinguishable. -/
theorem not_found_and_store_error_indistinguishable (env : Env) (headers : HeaderMap)
    (payload : Json) (tok : String)
    (htok : extract_bearer_token headers = some tok)
    (h : env.get_customer_configs tok = .ok none ∨
         env.get_customer_configs tok = .error ()) :
    chat_completion env headers payload =
      .ok ([Event.configLookup tok,
            Event.telemetry (log_stats 401 tok none none none 0
              (some "Invalid felafax token")),
            Event.respond 401 (RespBody.errJson "Invalid felafax token")],
           { status := 401, body := RespBody.errJson "Invalid felafax token" }) := by
  rcases h with h | h <;>
    simp only [chat_completion, htok, h, log_and_respond, log_stats]

/-- Witness for C8 with a token the sample store does not know. -/
theorem not_found_and_store_error_indistinguishable_witness :
    chat_completion sampleEnv { authorization := some (.valid "Bearer tok_bad") } goodPayload =
      .ok ([Event.configLookup "tok_bad",
            Event.telemetry (log_stats 401 "tok_bad" none none none 0
              (some "Invalid felafax token")),
            Event.respond 401 (RespBody.errJson "Invalid felafax token")],
           { status := 401, body := RespBody.errJson "Invalid felafax token" }) :=
  not_found_and_store_error_indistinguishable sampleEnv
    { authorization := some (.valid "Bearer tok_bad") } goodPayload "tok_bad"
    rfl (Or.inl rfl)

/-- C9: every run that reaches a terminal outcome (every non-panicking run)
performs exactly one telemetry invocation and exactly one response
construction, and the first of these two kinds of events in the trace is
the telemetry invocation. -/
theorem one_telemetry_then_one_response (env : Env) (headers : HeaderMap) (payload : Json)
    (tr : List Event) (resp : HttpResponse)
    (h : chat_completion env headers payload = .ok (tr, resp)) :
    telemetryCount tr = 1 ∧ respondCount tr = 1 ∧
      Option.any isTelemetry (tr.find? (fun e => isTelemetry e || isRespond e)) = true := by
  obtain ⟨pre, record, status, body, rfl, hpre, -⟩ :=
    chat_completion_trace_shape env headers payload tr resp h
  have hpre1 : pre.countP (fun e => isTelemetry e) = 0 :=
    List.countP_eq_zero.mpr (fun e he => by simp [(hpre e he).1])
  have hpre2 : pre.countP (fun e => isRespond e) = 0 :=
    List.countP_eq_zero.mpr (fun e he => by simp [(hpre e he).2])
  have hfind : pre.find? (fun e => isTelemetry e || isRespond e) = none :=
    List.find?_eq_none.mpr (fun e he => by simp [(hpre e he).1, (hpre e he).2])
  refine ⟨?_, ?_, ?_⟩
  · simp only [telemetryCount]
    rw [List.countP_append, hpre1]
    rfl
  · simp only [respondCount]
    rw [List.countP_append, hpre2]
    rfl
  · rw [List.find?_append, hfind]
    rfl

/-- Witness for C9 at the sample success run. -/
theorem one_telemetry_then_one_response_witness :
    telemetryCount successTrace = 1 ∧ respondCount successTrace = 1 ∧
      Option.any isTelemetry
        (successTrace.find? (fun e => isTelemetry e || isRespond e)) = true :=
  one_telemetry_then_one_response sampleEnv goodHeaders goodPayload
    successTrace successResp rfl

/-- C10: in every run that reaches a terminal outcome, the latency recorded
in the LogRecord is the constant 0 — the source passes the literal `0` to
`log_stats` on every path, regardless of elapsed time. -/
theorem latency_always_zero (env : Env) (headers : HeaderMap) (payload : Json)
    (tr : List Event) (resp : HttpResponse)
    (h : chat_completion env headers payload = .ok (tr, resp)) :
    ∀ record, Event.telemetry record ∈ tr → record.total_latency = 0 := by
  obtain ⟨pre, record, status, body, rfl, hpre, hlat⟩ :=
    chat_completion_trace_shape env headers payload tr resp h
  intro rec hmem
  rcases List.mem_append.mp hmem with hin | hin
  · exact absurd ((hpre _ hin).1) (by simp [isTelemetry])
  · simp only [List.mem_cons, List.not_mem_nil, or_false] at hin
    rcases hin with heq | heq
    · cases heq
      exact hlat
    · cases heq

/-- Witness for C10: the record of the sample success run carries latency 0. -/
theorem latency_always_zero_witness : successRecord.total_latency = 0 :=
  latency_always_zero sampleEnv goodHeaders goodPayload successTrace successResp rfl
    successRecord
    (List.mem_cons_of_mem _ (List.mem_cons_of_mem _ (List.mem_cons_self _ _)))

end LLMGateway
